import Mathlib

/-!
Shallow embedding of the RAG document-chat pipeline (a Django application):
text extraction, word chunking, embedding batching, vector storage,
chat-history assembly and the three-store document deletion, together with
theorems checking the specified behavior of each operation.

Python exceptions are modelled with Except; the vector index and the other
external stores are modelled by recording the calls the code performs.
-/

namespace RagChat

/-- Whitespace in the sense of the Python str.split and str.strip methods
(space, tab, newline, carriage return, vertical tab, form feed). -/
def pyIsSpace (c : Char) : Bool :=
  c == ' ' || c == '\t' || c == '\n' || c == '\r' || c == '\x0b' || c == '\x0c'

/-- Helper for pySplit: walk the characters, accumulating the current word
(reversed) and emitting it when whitespace is met. -/
def splitAux : List Char → List Char → List String
  | [], acc => if acc.isEmpty then [] else [String.mk acc.reverse]
  | c :: cs, acc =>
    if pyIsSpace c then
      if acc.isEmpty then splitAux cs []
      else String.mk acc.reverse :: splitAux cs []
    else splitAux cs (c :: acc)

/-- The Python call text.split() with no separator: split on runs of
whitespace, discarding empty parts. -/
def pySplit (s : String) : List String := splitAux s.data []

/-- Strip leading and trailing whitespace from a character list
(the Python str.strip method, at the character-list level). -/
def stripList (l : List Char) : List Char :=
  ((l.dropWhile pyIsSpace).reverse.dropWhile pyIsSpace).reverse

/-- The Python call text.strip(): remove leading and trailing whitespace. -/
def pyStrip (s : String) : String := String.mk (stripList s.data)

/-- The Python expression sep.join(words) for sep a single space, as used by
chunk_text. -/
def spaceJoin : List String → String
  | [] => ""
  | [w] => w
  | w :: ws => w ++ " " ++ spaceJoin ws

/-- DocumentProcessor.chunk_text (services.py lines 80 to 94).
Splits text into whitespace words and emits the word windows
words[i : i + chunk_size] for i in range(0, len(words), chunk_size - overlap),
joined by single spaces, keeping only windows whose join is non-blank.
The empty-text guard raises ValueError; a zero step makes the Python range
call itself raise ValueError, and a negative step makes the range empty, so
the loop body never runs and the empty chunk list is returned. -/
def chunk_text (text : String) (chunk_size overlap : Nat) : Except String (List String) :=
  if pyStrip text = "" then .error "Cannot chunk empty text"
  else if chunk_size = overlap then .error "range() arg 3 must not be zero"
  else if chunk_size < overlap then .ok []
  else
    let words := pySplit text
    let step := chunk_size - overlap
    let idxs := List.range' 0 ((words.length + (step - 1)) / step) step
    .ok ((idxs.map (fun i => spaceJoin ((words.drop i).take chunk_size))).filter
      (fun c => pyStrip c != ""))

/-- The concrete scenario input of the spec: the string built of the five
characters of the fragment word-plus-space repeated 1000 times. -/
def text1000 : String := String.mk ((List.replicate 1000 ['w', 'o', 'r', 'd', ' ']).flatten)

/-! Text extraction (services.py lines 30 to 78). The input bytes are
modelled by the structured content the extraction libraries would decode:
a list of page texts for PyPDF2, a list of paragraph texts for the docx
library, the decoded unicode text for a txt file, and a list of rows for
the csv reader. A mismatch between the declared type and the content
models the extraction library raising on malformed input. -/

inductive FileContent where
  | pdf (pages : List String)
  | docx (paragraphs : List String)
  | txt (decoded : String)
  | csv (rows : List (List String))
deriving DecidableEq

/-- The Python expression sep.join(row) for sep the three characters
space bar space, as used by the csv extractor. -/
def pipeJoin : List String → String
  | [] => ""
  | [w] => w
  | w :: ws => w ++ " | " ++ pipeJoin ws

/-- DocumentProcessor, extract from pdf: concatenate page texts, a newline
after each page, then strip. -/
def extract_from_pdf (pages : List String) : String :=
  pyStrip (String.join (pages.map (fun p => p ++ "\n")))

/-- DocumentProcessor, extract from docx: concatenate paragraph texts, a
newline after each paragraph, then strip. -/
def extract_from_docx (paragraphs : List String) : String :=
  pyStrip (String.join (paragraphs.map (fun p => p ++ "\n")))

/-- DocumentProcessor, extract from csv: each row joined by the bar
separator, a newline after each row, then strip. -/
def extract_from_csv (rows : List (List String)) : String :=
  pyStrip (String.join (rows.map (fun row => pipeJoin row ++ "\n")))

/-- DocumentProcessor.extract_text (services.py lines 30 to 45): dispatch on
the declared file type; pdf, docx and doc, txt and csv are handled, txt is
returned as the raw utf-8 decode, and every other declared type raises
ValueError. -/
def extract_text (content : FileContent) (file_type : String) : Except String String :=
  if file_type = "pdf" then
    match content with
    | .pdf pages => .ok (extract_from_pdf pages)
    | _ => .error "ExtractionError"
  else if file_type = "docx" ∨ file_type = "doc" then
    match content with
    | .docx paragraphs => .ok (extract_from_docx paragraphs)
    | _ => .error "ExtractionError"
  else if file_type = "txt" then
    match content with
    | .txt decoded => .ok decoded
    | _ => .error "ExtractionError"
  else if file_type = "csv" then
    match content with
    | .csv rows => .ok (extract_from_csv rows)
    | _ => .error "ExtractionError"
  else .error ("Unsupported file type: " ++ file_type)

/-! Embedding creation (services.py lines 96 to 147). The Cohere embed
endpoint is modelled by a pure function f returning the vector of one
input text; the endpoint returns the vectors of the texts it is sent, in
order. Vector components are modelled as integers since no arithmetic on
them is performed by the code under study. -/

/-- DocumentProcessor.create_embeddings: reject an empty input list, filter
out blank texts, reject an all-blank list, then embed the filtered list. -/
def create_embeddings (f : String → List Int) (texts : List String) :
    Except String (List (List Int)) :=
  if texts.isEmpty then .error "Cannot create embeddings for empty text list"
  else
    let valid_texts := texts.filter (fun t => t != "" && pyStrip t != "")
    if valid_texts.isEmpty then .error "All text chunks are empty"
    else
      let embeddings := valid_texts.map f
      if embeddings.isEmpty then .error "Cohere API returned no embeddings"
      else .ok embeddings

/-- A sample embedding function for concrete evaluations: the vector holding
the length of the text. -/
def embedLen : String → List Int := fun s => [(s.length : Int)]

/-- One vector record sent to the index: id, values, and the metadata fields
written by store_in_pinecone (the chunk text, the chunk index, and the
caller-supplied metadata pairs). -/
structure PineVector where
  vid : String
  values : List Int
  text : String
  chunk_index : Nat
  extra : List (String × String)
deriving DecidableEq

/-- The vector list built by store_in_pinecone: zip chunks with embeddings,
enumerate, and attach ids and metadata. The zip stops at the shorter of the
two lists. -/
def storeVectors (chunks : List String) (embeddings : List (List Int))
    (ns : String) (metadata : List (String × String)) : List PineVector :=
  (chunks.zip embeddings).enum.map (fun p =>
    { vid := ns ++ "_" ++ toString p.1, values := p.2.2, text := p.2.1,
      chunk_index := p.1, extra := metadata : PineVector })

/-- The upsert loop of store_in_pinecone: one call per slice of 100 vectors. -/
def upsertBatches (ns : String) (vectors : List PineVector) :
    List (String × List PineVector) :=
  (List.range' 0 ((vectors.length + 99) / 100) 100).map
    (fun i => (ns, (vectors.drop i).take 100))

/-- DocumentProcessor.store_in_pinecone (services.py lines 149 to 179):
zip chunks with embeddings, enumerate, build ids of the form
namespace underscore index, and upsert the vectors in batches of 100.
Returns the id list and the list of upsert calls performed, each a
namespace paired with a batch of at most 100 vectors. -/
def store_in_pinecone (chunks : List String) (embeddings : List (List Int))
    (ns : String) (metadata : List (String × String)) :
    List String × List (String × List PineVector) :=
  ((chunks.zip embeddings).enum.map (fun p => ns ++ "_" ++ toString p.1),
    upsertBatches ns (storeVectors chunks embeddings ns metadata))

/-- DocumentProcessor.process_document (services.py lines 185 to 212):
extract, reject text whose stripped length is below 10, chunk with the
default sizes 500 and 50, embed, store. The first component is the returned
pair of chunks and ids, or the raised error; the second component records
the upsert calls the run performed against the vector index. -/
def process_document (f : String → List Int) (content : FileContent)
    (file_type ns : String) (metadata : List (String × String)) :
    Except String (List String × List String) × List (String × List PineVector) :=
  match extract_text content file_type with
  | .error e => (.error e, [])
  | .ok text =>
    if (pyStrip text).length < 10 then
      (.error "Document contains insufficient text content", [])
    else
      match chunk_text text 500 50 with
      | .error e => (.error e, [])
      | .ok chunks =>
        match create_embeddings f chunks with
        | .error e => (.error e, [])
        | .ok embeddings =>
          let res := store_in_pinecone chunks embeddings ns metadata
          (.ok (chunks, res.1), res.2)

/-! Chat history assembly (views.py, send_message, lines 145 to 161). -/

/-- A persisted ChatMessage row of one session: role, content, and the
creation timestamp (an abstract tick). -/
structure StoredMessage where
  role : String
  content : String
  created_at : Nat
deriving DecidableEq

/-- One history entry handed to the generation backend. -/
structure HistEntry where
  role : String
  message : String
deriving DecidableEq

/-- The Python expression role_map.get(msg.role, the USER default) for the
dict sending user to USER and assistant to CHATBOT: an unknown role falls
back to the default USER. -/
def roleMapGet (role : String) : String :=
  if role = "user" then "USER"
  else if role = "assistant" then "CHATBOT"
  else "USER"

/-- Insert a message into a list sorted by creation time, keeping earlier
list positions first among equal timestamps (stability of the sort). -/
def insertByCreated (m : StoredMessage) : List StoredMessage → List StoredMessage
  | [] => [m]
  | x :: xs =>
    if m.created_at ≤ x.created_at then m :: x :: xs
    else x :: insertByCreated m xs

/-- The Django queryset order_by on created_at: a stable sort of the rows by
creation time, modelled as an insertion sort. -/
def orderByCreated : List StoredMessage → List StoredMessage
  | [] => []
  | m :: ms => insertByCreated m (orderByCreated ms)

/-- The history construction of send_message: filter the session messages to
those created strictly before the new user message, order them by creation
time ascending, slice the FIRST ten of that ordering, and map each to a
role-tagged entry. -/
def get_chat_history (messages : List StoredMessage) (cutoff : Nat) : List HistEntry :=
  ((orderByCreated (messages.filter (fun m => m.created_at < cutoff))).take 10).map
    (fun m => { role := roleMapGet m.role, message := m.content })

/-- A session with eleven prior messages, alternating roles, created at the
ticks 0 through 10. -/
def msgs11 : List StoredMessage :=
  [⟨"user", "m0", 0⟩, ⟨"assistant", "m1", 1⟩, ⟨"user", "m2", 2⟩, ⟨"assistant", "m3", 3⟩,
    ⟨"user", "m4", 4⟩, ⟨"assistant", "m5", 5⟩, ⟨"user", "m6", 6⟩, ⟨"assistant", "m7", 7⟩,
    ⟨"user", "m8", 8⟩, ⟨"assistant", "m9", 9⟩, ⟨"user", "m10", 10⟩]

/-! Document deletion (views.py, delete_document, lines 199 to 218, and
services.py delete_document_vectors, lines 214 to 221). The three stores
are modelled by flags saying whether each delete call would succeed.
delete_document_vectors re-raises a vector-index failure, so the view
aborts before touching the other stores; CloudinaryService.delete_file
catches every exception and returns a boolean the view ignores; the record
delete raises on failure. Any raised error becomes the single error
response. -/

/-- What a run of the delete_document view did: which of the three delete
calls were attempted, and the JSON response (ok true on success, otherwise
one error string). -/
structure DeleteOutcome where
  vectorAttempted : Bool
  fileAttempted : Bool
  recordAttempted : Bool
  response : Except String Bool

/-- The delete_document view as a function of which stores would succeed.
The fileOk flag is accepted but never read, because the view drops the
boolean result of delete_file. -/
def delete_document (vectorOk fileOk recordOk : Bool) : DeleteOutcome :=
  if vectorOk = false then
    { vectorAttempted := true, fileAttempted := false, recordAttempted := false,
      response := .error "Failed to delete vectors" }
  else if recordOk = false then
    { vectorAttempted := true, fileAttempted := true, recordAttempted := true,
      response := .error "Failed to delete record" }
  else
    { vectorAttempted := true, fileAttempted := true, recordAttempted := true,
      response := .ok true }

/-! Lemmas about splitting and joining repeated words. -/

theorem splitAux_word (rest : List Char) :
    splitAux ('w' :: 'o' :: 'r' :: 'd' :: ' ' :: rest) [] = "word" :: splitAux rest [] := rfl

theorem splitAux_flatten (n : Nat) :
    splitAux ((List.replicate n ['w', 'o', 'r', 'd', ' ']).flatten) [] =
      List.replicate n "word" := by
  induction n with
  | zero => rfl
  | succ m ih =>
    rw [List.replicate_succ, List.flatten_cons]
    calc splitAux (['w', 'o', 'r', 'd', ' '] ++ (List.replicate m ['w', 'o', 'r', 'd', ' ']).flatten) []
        = "word" :: splitAux ((List.replicate m ['w', 'o', 'r', 'd', ' ']).flatten) [] :=
          splitAux_word _
      _ = List.replicate (m + 1) "word" := by rw [ih, List.replicate_succ]

theorem pySplit_text1000 : pySplit text1000 = List.replicate 1000 "word" :=
  splitAux_flatten 1000

theorem pySplit_word_space_append (s : String) :
    pySplit ("word " ++ s) = "word" :: pySplit s := by
  show splitAux (("word " ++ s).data) [] = _
  rw [String.data_append]
  exact splitAux_word s.data

theorem spaceJoin_replicate_step (m : Nat) :
    spaceJoin (List.replicate (m + 2) "word") =
      "word " ++ spaceJoin (List.replicate (m + 1) "word") := rfl

theorem pySplit_spaceJoin_replicate (k : Nat) :
    pySplit (spaceJoin (List.replicate k "word")) = List.replicate k "word" := by
  induction k with
  | zero => rfl
  | succ n ih =>
    cases n with
    | zero => rfl
    | succ m =>
      rw [spaceJoin_replicate_step m, pySplit_word_space_append, ih]
      simp [List.replicate_succ]

/-! Lemmas showing that strings containing a non-whitespace character do not
strip to the empty string. -/

theorem mem_of_mem_dropWhile {p : Char → Bool} {l : List Char} {c : Char}
    (h : c ∈ l.dropWhile p) : c ∈ l :=
  (List.dropWhile_sublist p (l := l)).mem h

theorem stripList_eq_nil_iff (l : List Char) :
    stripList l = [] ↔ ∀ c ∈ l, pyIsSpace c = true := by
  unfold stripList
  rw [List.reverse_eq_nil_iff, List.dropWhile_eq_nil_iff]
  constructor
  · intro h c hc
    rw [← List.takeWhile_append_dropWhile pyIsSpace l] at hc
    rcases List.mem_append.mp hc with h1 | h2
    · exact List.mem_takeWhile_imp h1
    · exact h c (List.mem_reverse.mpr h2)
  · intro h c hc
    exact h c (mem_of_mem_dropWhile (List.mem_reverse.mp hc))

theorem pyStrip_ne_empty {s : String} {c : Char}
    (hc : c ∈ s.data) (hns : pyIsSpace c = false) : pyStrip s ≠ "" := by
  intro h
  have hdata : stripList s.data = [] := by
    have := String.ext_iff.mp h
    exact this
  have := (stripList_eq_nil_iff s.data).mp hdata c hc
  rw [hns] at this
  exact Bool.false_ne_true this

theorem w_not_space : pyIsSpace 'w' = false := rfl

theorem w_mem_spaceJoin_replicate (k : Nat) :
    'w' ∈ (spaceJoin (List.replicate (k + 1) "word")).data := by
  cases k with
  | zero => decide
  | succ m =>
    rw [spaceJoin_replicate_step m, String.data_append]
    exact List.mem_append.mpr (Or.inl (by decide))

theorem spaceJoin_replicate_nonblank (k : Nat) :
    pyStrip (spaceJoin (List.replicate (k + 1) "word")) ≠ "" :=
  pyStrip_ne_empty (w_mem_spaceJoin_replicate k) w_not_space

theorem w_mem_text1000 : 'w' ∈ text1000.data := by
  show 'w' ∈ (List.replicate 1000 ['w', 'o', 'r', 'd', ' ']).flatten
  rw [show (1000 : Nat) = 999 + 1 by norm_num, List.replicate_succ, List.flatten_cons]
  exact List.mem_append.mpr (Or.inl (by decide))

theorem text1000_nonblank : pyStrip text1000 ≠ "" :=
  pyStrip_ne_empty w_mem_text1000 w_not_space

/-- The three chunks that chunk_text produces on the 1000-word input:
the windows at word offsets 0, 450 and 900, of 500, 500 and 100 words. -/
theorem chunk_text_word1000 :
    chunk_text text1000 500 50 =
      .ok [spaceJoin (List.replicate 500 "word"), spaceJoin (List.replicate 500 "word"),
        spaceJoin (List.replicate 100 "word")] := by
  unfold chunk_text
  rw [if_neg text1000_nonblank, if_neg (by decide), if_neg (by decide)]
  have hlen : (pySplit text1000).length = 1000 := by
    rw [pySplit_text1000, List.length_replicate]
  simp only [hlen]
  have hdiv : (1000 + (500 - 50 - 1)) / (500 - 50) = 3 := by norm_num
  rw [hdiv]
  have hrange : List.range' 0 3 (500 - 50) = [0, 450, 900] := by decide
  rw [hrange]
  simp only [List.map_cons, List.map_nil, pySplit_text1000, List.drop_replicate,
    List.take_replicate]
  norm_num
  exact ⟨spaceJoin_replicate_nonblank 499, spaceJoin_replicate_nonblank 99⟩


/-! Lemmas showing that stripping is idempotent (needed for the trimming
property of the extractors). -/

theorem dropWhile_dropWhile (p : Char → Bool) (l : List Char) :
    (l.dropWhile p).dropWhile p = l.dropWhile p := by
  induction l with
  | nil => rfl
  | cons a t ih =>
    rw [List.dropWhile_cons]
    split
    · exact ih
    · next h => rw [List.dropWhile_cons, if_neg h]

theorem dropWhile_eq_self_of_head {l : List Char}
    (h : ∀ x, l.head? = some x → pyIsSpace x = false) :
    l.dropWhile pyIsSpace = l := by
  cases l with
  | nil => rfl
  | cons a t =>
    rw [List.dropWhile_cons, if_neg]
    simp [h a rfl]

theorem getLast?_inner_strip (l : List Char) (x : Char)
    (hx : ((l.dropWhile pyIsSpace).reverse.dropWhile pyIsSpace).getLast? = some x) :
    pyIsSpace x = false := by
  obtain ⟨t, ht⟩ := List.dropWhile_suffix (l := (l.dropWhile pyIsSpace).reverse) pyIsSpace
  have h1 : (l.dropWhile pyIsSpace).reverse.getLast? = some x := by
    rw [← ht, List.getLast?_append, hx]
    rfl
  rw [List.getLast?_reverse] at h1
  have h2 := List.head?_dropWhile_not pyIsSpace l
  rw [h1] at h2
  exact h2

theorem stripList_idem (l : List Char) : stripList (stripList l) = stripList l := by
  unfold stripList
  have hA : (((l.dropWhile pyIsSpace).reverse.dropWhile pyIsSpace).reverse).dropWhile pyIsSpace
      = ((l.dropWhile pyIsSpace).reverse.dropWhile pyIsSpace).reverse := by
    apply dropWhile_eq_self_of_head
    intro x hx
    rw [List.head?_reverse] at hx
    exact getLast?_inner_strip l x hx
  rw [hA, List.reverse_reverse, dropWhile_dropWhile]

theorem pyStrip_idem (s : String) : pyStrip (pyStrip s) = pyStrip s := by
  show String.mk (stripList (stripList s.data)) = String.mk (stripList s.data)
  rw [stripList_idem]

/-! Lemmas about the stable ordering of messages. -/

theorem insertByCreated_of_le {m : StoredMessage} {l : List StoredMessage}
    (h : ∀ y ∈ l, m.created_at ≤ y.created_at) :
    insertByCreated m l = m :: l := by
  cases l with
  | nil => rfl
  | cons x xs =>
    rw [insertByCreated, if_pos (h x (List.mem_cons_self x xs))]

theorem orderByCreated_eq_self {l : List StoredMessage}
    (h : l.Pairwise (fun a b => a.created_at ≤ b.created_at)) :
    orderByCreated l = l := by
  induction l with
  | nil => rfl
  | cons m ms ih =>
    rw [orderByCreated, ih (List.Pairwise.of_cons h),
      insertByCreated_of_le (fun y hy => List.rel_of_pairwise_cons h hy)]


/-! The batched upsert loop writes every vector exactly once: flattening the
batches of size b recovers the vector list. -/

theorem flatten_batches {α : Type} (b : Nat) (hb : 0 < b) :
    ∀ (n : Nat) (l : List α), l.length ≤ n →
      ((List.range' 0 ((l.length + (b - 1)) / b) b).map
        (fun i => (l.drop i).take b)).flatten = l := by
  intro n
  induction n with
  | zero =>
    intro l hl
    have h0 : l = [] := List.eq_nil_of_length_eq_zero (Nat.le_zero.mp hl)
    subst h0
    have hdiv : (List.length ([] : List α) + (b - 1)) / b = 0 := by
      apply Nat.div_eq_of_lt
      simp only [List.length_nil, Nat.zero_add]
      omega
    rw [hdiv]
    rfl
  | succ m ih =>
    intro l hl
    by_cases hnil : l = []
    · subst hnil
      have hdiv : (List.length ([] : List α) + (b - 1)) / b = 0 := by
        apply Nat.div_eq_of_lt
        simp only [List.length_nil, Nat.zero_add]
        omega
      rw [hdiv]
      rfl
    by_cases hsmall : l.length ≤ b
    · have hpos : 0 < l.length := List.length_pos.mpr hnil
      have hdiv : (l.length + (b - 1)) / b = 1 := by
        apply Nat.div_eq_of_lt_le <;> omega
      rw [hdiv]
      show (((l.drop 0).take b) ++ [].flatten) = l
      rw [List.drop_zero, List.take_of_length_le hsmall, List.flatten_nil, List.append_nil]
    · push_neg at hsmall
      have harith : l.length + (b - 1) = ((l.drop b).length + (b - 1)) + b := by
        rw [List.length_drop]
        omega
      rw [harith, Nat.add_div_right _ hb, List.range'_succ, List.map_cons, List.flatten_cons]
      have hshift : List.range' (0 + b) (((l.drop b).length + (b - 1)) / b) b
          = List.map (fun x => b + x) (List.range' 0 (((l.drop b).length + (b - 1)) / b) b) := by
        rw [List.map_add_range', Nat.add_zero, Nat.zero_add]
      rw [hshift, List.map_map]
      have hfun : ((fun i => (l.drop i).take b) ∘ fun x => b + x)
          = fun i => ((l.drop b).drop i).take b := by
        funext i
        simp only [Function.comp_apply, List.drop_drop]
      rw [hfun]
      have hlen2 : (l.drop b).length ≤ m := by
        rw [List.length_drop]
        omega
      rw [ih (l.drop b) hlen2, List.drop_zero, List.take_append_drop]

theorem upsertBatches_flatten (ns : String) (vectors : List PineVector) :
    ((upsertBatches ns vectors).map Prod.snd).flatten = vectors := by
  unfold upsertBatches
  rw [List.map_map]
  exact flatten_batches 100 (by norm_num) vectors.length vectors le_rfl

/-! Helper facts about the 1000-word chunking scenario. -/

theorem chunk_text_word1000_wordCounts :
    (chunk_text text1000 500 50).map (fun l => l.map (fun c => (pySplit c).length)) =
      .ok [500, 500, 100] := by
  rw [chunk_text_word1000]
  show Except.ok ([spaceJoin (List.replicate 500 "word"), spaceJoin (List.replicate 500 "word"),
    spaceJoin (List.replicate 100 "word")].map (fun c => (pySplit c).length)) =
    Except.ok [500, 500, 100]
  simp only [List.map_cons, List.map_nil, pySplit_spaceJoin_replicate, List.length_replicate]

/-- Claim C1: on the 1000-word input with size 500 and overlap 50, the claim
announces three chunks of 500, 500 and approximately 78 words; the code
produces word counts 500, 500 and 100, and 100 is not within 10 of 78. -/
theorem claim1_counterexample :
    (chunk_text text1000 500 50).map (fun l => l.map (fun c => (pySplit c).length)) =
      .ok [500, 500, 100]
    ∧ (100 : Nat) ≠ 78 ∧ 78 + 10 < 100 :=
  ⟨chunk_text_word1000_wordCounts, by norm_num, by norm_num⟩

/-- Claim C1 (amended): chunk_text on the 1000-word input returns exactly the
three word windows starting at word offsets 0, 450 and 900, whose word
counts are 500, 500 and 100. -/
theorem claim1_amended :
    chunk_text text1000 500 50 =
      .ok (([0, 450, 900] : List Nat).map
        (fun i => spaceJoin (((pySplit text1000).drop i).take 500)))
    ∧ (chunk_text text1000 500 50).map (fun l => l.map (fun c => (pySplit c).length)) =
      .ok [500, 500, 100] := by
  refine ⟨?_, chunk_text_word1000_wordCounts⟩
  rw [chunk_text_word1000]
  simp only [List.map_cons, List.map_nil, pySplit_text1000, List.drop_replicate,
    List.take_replicate]
  norm_num

/-- Claim C2: the claim announces that every configuration with overlap at
least chunk_size fails with a configuration error; but with overlap 501 and
chunk_size 500 on a non-blank text the code returns normally with an empty
chunk list. -/
theorem claim2_counterexample :
    chunk_text "hello" 500 501 = .ok [] ∧ pyStrip "hello" ≠ "" :=
  ⟨rfl, by decide⟩

/-- Claim C2 (amended): for a non-blank text and overlap at least chunk_size,
the call fails only in the exact-equality case (the zero-step ValueError of
the Python range builtin, not a configuration check); for overlap strictly
greater the violation is swallowed and the empty chunk list is returned
normally. -/
theorem claim2_amended (text : String) (chunk_size overlap : Nat)
    (hne : pyStrip text ≠ "") (hle : chunk_size ≤ overlap) :
    chunk_text text chunk_size overlap =
      if chunk_size = overlap then .error "range() arg 3 must not be zero"
      else .ok [] := by
  unfold chunk_text
  rw [if_neg hne]
  by_cases heq : chunk_size = overlap
  · rw [if_pos heq, if_pos heq]
  · rw [if_neg heq, if_neg heq, if_pos (lt_of_le_of_ne hle heq)]

theorem claim2_witness :
    chunk_text "hello" 500 501 =
      if (500 : Nat) = 501 then .error "range() arg 3 must not be zero"
      else .ok [] :=
  claim2_amended "hello" 500 501 (by decide) (by decide)

/-- Claim C3: the claim announces that the history holds the 10 MOST RECENT
prior messages; on a session with eleven prior messages the code passes the
ten OLDEST (m0 through m9) and omits the most recent prior message m10. -/
theorem claim3_counterexample :
    get_chat_history msgs11 11 =
      [⟨"USER", "m0"⟩, ⟨"CHATBOT", "m1"⟩, ⟨"USER", "m2"⟩, ⟨"CHATBOT", "m3"⟩,
        ⟨"USER", "m4"⟩, ⟨"CHATBOT", "m5"⟩, ⟨"USER", "m6"⟩, ⟨"CHATBOT", "m7"⟩,
        ⟨"USER", "m8"⟩, ⟨"CHATBOT", "m9"⟩]
    ∧ (⟨"USER", "m10"⟩ : HistEntry) ∉ get_chat_history msgs11 11 := by
  constructor
  · decide
  · decide

/-- Claim C3 (amended): the history passed to the backend consists of at most
the 10 EARLIEST prior messages of the session, in chronological order, each
tagged with its mapped role. -/
theorem claim3_amended (msgs : List StoredMessage) (cutoff : Nat)
    (hsorted : msgs.Pairwise (fun a b => a.created_at ≤ b.created_at)) :
    get_chat_history msgs cutoff =
      ((msgs.filter (fun m => m.created_at < cutoff)).take 10).map
        (fun m => { role := roleMapGet m.role, message := m.content })
    ∧ (get_chat_history msgs cutoff).length ≤ 10 := by
  constructor
  · unfold get_chat_history
    rw [orderByCreated_eq_self (hsorted.filter _)]
  · unfold get_chat_history
    rw [List.length_map, List.length_take]
    exact Nat.min_le_left _ _

theorem claim3_witness :
    get_chat_history msgs11 11 =
      ((msgs11.filter (fun m => m.created_at < 11)).take 10).map
        (fun m => { role := roleMapGet m.role, message := m.content })
    ∧ (get_chat_history msgs11 11).length ≤ 10 :=
  claim3_amended msgs11 11 (by decide)

/-- Claim C4: the claim announces that an unrecognized stored role fails
loudly; but a message with role system is silently mapped to the backend
role USER and the call returns normally. -/
theorem claim4_counterexample :
    get_chat_history [⟨"system", "boot", 0⟩] 5 = [⟨"USER", "boot"⟩] := by decide

/-- Claim C4 (amended): a stored role that is neither user nor assistant is
silently defaulted to the backend role USER by the dict-get fallback; no
failure is raised. -/
theorem claim4_amended (r c : String) (t cutoff : Nat)
    (h1 : r ≠ "user") (h2 : r ≠ "assistant") (ht : t < cutoff) :
    get_chat_history [⟨r, c, t⟩] cutoff = [⟨"USER", c⟩] := by
  simp [get_chat_history, orderByCreated, insertByCreated, roleMapGet, ht, h1, h2]

theorem claim4_witness :
    get_chat_history [⟨"tool", "result", 2⟩] 7 = [⟨"USER", "result"⟩] :=
  claim4_amended "tool" "result" 2 7 (by decide) (by decide) (by decide)

/-- Claim C5: the claim announces that a failure in any one store does not
prevent the deletion attempts in the other two and that the response reports
which of the three succeeded; but a vector-index failure aborts before the
file and record deletions are even attempted, and the response is identical
whether or not the file-store deletion succeeded. -/
theorem claim5_counterexample :
    (delete_document false true true).vectorAttempted = true
    ∧ (delete_document false true true).fileAttempted = false
    ∧ (delete_document false true true).recordAttempted = false
    ∧ delete_document true false true = delete_document true true true :=
  ⟨rfl, rfl, rfl, rfl⟩

/-- Claim C5 (amended): a vector-index deletion failure aborts the operation
with a single error before the file-store and record-store deletions are
attempted; when the vector deletion succeeds the other two are attempted,
a file-store failure is swallowed without affecting the outcome, and the
response never reports per-store results. -/
theorem claim5_amended (f r : Bool) :
    (delete_document false f r).fileAttempted = false
    ∧ (delete_document false f r).recordAttempted = false
    ∧ (delete_document false f r).response = .error "Failed to delete vectors"
    ∧ (delete_document true f r).fileAttempted = true
    ∧ (delete_document true f r).recordAttempted = true
    ∧ delete_document true f r = delete_document true true r := by
  cases f <;> cases r <;> exact ⟨rfl, rfl, rfl, rfl, rfl, rfl⟩

/-- Claim C6: the claim announces that the declared type image succeeds with
a descriptive placeholder; but extract_text has no image branch and raises
the unsupported-type ValueError for it. -/
theorem claim6_counterexample :
    extract_text (.txt "a holiday photo") "image" =
      .error "Unsupported file type: image" := rfl

/-- Claim C6 (amended): the supported declared types are exactly pdf, docx,
doc, txt and csv; every other declared type, including image, raises the
unsupported-type ValueError and no placeholder is produced. -/
theorem claim6_amended (c : FileContent) (ft : String)
    (h : ¬(ft = "pdf" ∨ ft = "docx" ∨ ft = "doc" ∨ ft = "txt" ∨ ft = "csv")) :
    extract_text c ft = .error ("Unsupported file type: " ++ ft) := by
  push_neg at h
  obtain ⟨h1, h2, h3, h4, h5⟩ := h
  unfold extract_text
  rw [if_neg h1, if_neg (not_or.mpr ⟨h2, h3⟩), if_neg h4, if_neg h5]

theorem claim6_witness :
    extract_text (.txt "x") "image" = .error ("Unsupported file type: " ++ "image") :=
  claim6_amended (.txt "x") "image" (by decide)

/-- Claim C7: the claim announces that every successful extraction returns
trimmed text; but the txt branch returns the raw decode, so a txt input with
surrounding whitespace comes back untrimmed. -/
theorem claim7_counterexample :
    extract_text (.txt " hello ") "txt" = .ok " hello "
    ∧ pyStrip " hello " ≠ " hello " :=
  ⟨rfl, by decide⟩

/-- Claim C7 (amended): the pdf, docx, doc and csv extractors strip their
output, so any text they return successfully is its own strip; only the txt
branch returns the decoded input verbatim, untrimmed. -/
theorem claim7_amended (c : FileContent) (ft t : String)
    (hft : ft = "pdf" ∨ ft = "docx" ∨ ft = "doc" ∨ ft = "csv")
    (h : extract_text c ft = .ok t) : pyStrip t = t := by
  rcases hft with h1 | h1 | h1 | h1 <;> subst h1 <;> cases c <;>
      simp +decide [extract_text, extract_from_pdf, extract_from_docx,
        extract_from_csv] at h <;>
    exact h ▸ pyStrip_idem _

theorem claim7_witness :
    pyStrip (extract_from_pdf ["  hi  "]) = extract_from_pdf ["  hi  "] :=
  claim7_amended (.pdf ["  hi  "]) "pdf" (extract_from_pdf ["  hi  "]) (Or.inl rfl) rfl

/-- Claim C8: the claim announces one vector per input text at the matching
position for every non-empty input list; but blank texts are filtered out
before embedding, so the input a-blank-b yields only two vectors and the
positional correspondence is lost. -/
theorem claim8_counterexample :
    create_embeddings embedLen ["a", " ", "b"] = .ok [[1], [1]]
    ∧ ¬([[1], [1]] : List (List Int)).length = (["a", " ", "b"] : List String).length :=
  ⟨rfl, by decide⟩

/-- Claim C8 (amended): whenever at least one input text is non-blank,
create_embeddings returns exactly one vector per NON-BLANK input text, in
the order of those inputs; blank texts are silently dropped first. -/
theorem claim8_amended (f : String → List Int) (texts : List String)
    (h : texts.filter (fun t => t != "" && pyStrip t != "") ≠ []) :
    create_embeddings f texts =
      .ok ((texts.filter (fun t => t != "" && pyStrip t != "")).map f)
    ∧ ((texts.filter (fun t => t != "" && pyStrip t != "")).map f).length
        = (texts.filter (fun t => t != "" && pyStrip t != "")).length := by
  have htexts : texts ≠ [] := by
    intro he
    rw [he] at h
    exact h rfl
  have e1 : ¬ texts.isEmpty = true := by
    rw [List.isEmpty_iff]
    exact htexts
  have e2 : ¬ (texts.filter (fun t => t != "" && pyStrip t != "")).isEmpty = true := by
    rw [List.isEmpty_iff]
    exact h
  have e3 : ¬ ((texts.filter (fun t => t != "" && pyStrip t != "")).map f).isEmpty = true := by
    rw [List.isEmpty_iff, List.map_eq_nil_iff]
    exact h
  constructor
  · simp only [create_embeddings]
    rw [if_neg e1, if_neg e2, if_neg e3]
  · exact List.length_map _ _

theorem claim8_witness :
    create_embeddings embedLen ["hi", "there"] =
      .ok (((["hi", "there"] : List String).filter
        (fun t => t != "" && pyStrip t != "")).map embedLen)
    ∧ (((["hi", "there"] : List String).filter
        (fun t => t != "" && pyStrip t != "")).map embedLen).length
        = ((["hi", "there"] : List String).filter
          (fun t => t != "" && pyStrip t != "")).length :=
  claim8_amended embedLen ["hi", "there"] (by decide)

/-- Claim C9: when extraction succeeds but the stripped text has fewer than
10 characters, process_document raises the insufficient-content error and
performs no upsert against the vector index. -/
theorem claim9_theorem (f : String → List Int) (c : FileContent) (ft ns : String)
    (meta : List (String × String)) (t : String)
    (hex : extract_text c ft = .ok t) (hshort : (pyStrip t).length < 10) :
    process_document f c ft ns meta =
      (.error "Document contains insufficient text content", []) := by
  unfold process_document
  rw [hex]
  simp only [if_pos hshort]

theorem claim9_witness :
    process_document embedLen (.txt "short") "txt" "ns1" [] =
      (.error "Document contains insufficient text content", []) :=
  claim9_theorem embedLen (.txt "short") "txt" "ns1" [] "short" rfl (by decide)

/-- Claim C10: store_in_pinecone pairs chunks with embeddings positionally
and stops at the shorter list: the id list is namespace underscore i for i
below the minimum of the two lengths, and the batches written to the index
hold exactly that many vectors, so surplus chunks are not stored. -/
theorem claim10_theorem (chunks : List String) (embeddings : List (List Int))
    (ns : String) (meta : List (String × String)) :
    (store_in_pinecone chunks embeddings ns meta).1 =
      (List.range (min chunks.length embeddings.length)).map
        (fun i => ns ++ "_" ++ toString i)
    ∧ (store_in_pinecone chunks embeddings ns meta).1.length
        = min chunks.length embeddings.length
    ∧ (((store_in_pinecone chunks embeddings ns meta).2.map Prod.snd).flatten).length
        = min chunks.length embeddings.length := by
  have hids : (store_in_pinecone chunks embeddings ns meta).1 =
      (List.range (min chunks.length embeddings.length)).map
        (fun i => ns ++ "_" ++ toString i) := by
    show (chunks.zip embeddings).enum.map (fun p => ns ++ "_" ++ toString p.1) = _
    have hcomp : (fun p : Nat × (String × List Int) => ns ++ "_" ++ toString p.1)
        = (fun i => ns ++ "_" ++ toString i) ∘ Prod.fst := rfl
    rw [hcomp, ← List.map_map, List.enum_map_fst, List.length_zip]
  refine ⟨hids, ?_, ?_⟩
  · rw [hids, List.length_map, List.length_range]
  · show (((upsertBatches ns (storeVectors chunks embeddings ns meta)).map
        Prod.snd).flatten).length = _
    rw [upsertBatches_flatten]
    unfold storeVectors
    rw [List.length_map, List.enum_length, List.length_zip]

end RagChat
